import Mathlib

/-!
Shallow embedding of `src/learner/learner-inl.h` (class `xgboost::learner::BoostLearner`
and its nested `ModelParam`), with theorems settling the specification claims.

Floating-point scalars of the source are modelled as real numbers; C `int` is
modelled as `Int`, C `unsigned` as `Nat` reduced modulo `2^32` where the source
casts to it.  Fatal conditions (`utils::Error`, `utils::Assert`) are modelled
by `Except String`.
-/

set_option autoImplicit false

/-- Digit-accumulation loop shared by the models of C `atoi` / `atof`:
consumes leading decimal digits, stopping at the first non-digit. -/
def parseDigits : List Char → Nat → Nat
  | [], acc => acc
  | c :: cs, acc => if c.isDigit then parseDigits cs (10 * acc + (c.toNat - 48)) else acc

/-- Model of C `atoi` as used by `ModelParam::SetParam`: optional sign followed
by decimal digits. -/
def atoi (s : String) : Int :=
  match s.toList with
  | '-' :: cs => - (parseDigits cs 0 : Int)
  | '+' :: cs => (parseDigits cs 0 : Int)
  | cs => (parseDigits cs 0 : Int)

/-- Rational value of a digit string with an optional fractional part,
used by the model of C `atof`. -/
def atofQ (cs : List Char) : ℚ :=
  let ip : ℚ := (parseDigits (cs.takeWhile Char.isDigit) 0 : ℚ)
  match cs.dropWhile Char.isDigit with
  | '.' :: fs =>
      let fd := fs.takeWhile Char.isDigit
      ip + (parseDigits fd 0 : ℚ) / (10 ^ fd.length : ℚ)
  | _ => ip

/-- Model of C `atof` as used by `ModelParam::SetParam`. -/
def atof (s : String) : ℝ :=
  match s.toList with
  | '-' :: cs => - ((atofQ cs : ℚ) : ℝ)
  | '+' :: cs => ((atofQ cs : ℚ) : ℝ)
  | cs => ((atofQ cs : ℚ) : ℝ)

/-- `struct ModelParam` of `learner-inl.h`: global bias, loss identifier,
feature-count bound and the 16-word reserved block.  The reserved block is a
`List Int` whose length is 16 in every record the code builds. -/
structure ModelParam where
  base_score : ℝ
  loss_type : Int
  num_feature : Int
  reserved : List Int

/-- The `ModelParam()` constructor: `base_score = 0.5`, `loss_type = 0`,
`num_feature = 0`, reserved block zero-filled by `memset`. -/
noncomputable def ModelParam.init : ModelParam :=
  ⟨0.5, 0, 0, List.replicate 16 0⟩

/-- `ModelParam::SetParam`: three independent `strcmp` guards, each assigning
the parsed value when its key matches. -/
def ModelParam.SetParam (m : ModelParam) (name val : String) : ModelParam :=
  let m1 := if name = "base_score" then { m with base_score := atof val } else m
  let m2 := if name = "loss_type" then { m1 with loss_type := atoi val } else m1
  if name = "bst:num_feature" then { m2 with num_feature := atoi val } else m2

/-- `ModelParam::AdjustBase`: for the logistic loss kinds (1 and 2) it asserts
`0 < base_score < 1` ("sigmoid range constrain") and replaces `base_score`
with `-log (1/base_score - 1)`; any other loss kind leaves the record alone. -/
noncomputable def ModelParam.AdjustBase (m : ModelParam) : Except String ModelParam :=
  if m.loss_type = 1 ∨ m.loss_type = 2 then
    if 0 < m.base_score ∧ m.base_score < 1 then
      .ok { m with base_score := - Real.log (1 / m.base_score - 1) }
    else .error "sigmoid range constrain"
  else .ok m

/-- `ModelParam::PredTransform`: identity for `kLinearSquare` (0), sigmoid for
`kLogisticClassify` (2) and `kLogisticNeglik` (1), fatal otherwise. -/
noncomputable def ModelParam.PredTransform (m : ModelParam) (x : ℝ) : Except String ℝ :=
  if m.loss_type = 0 then .ok x
  else if m.loss_type = 2 ∨ m.loss_type = 1 then .ok (1 / (1 + Real.exp (-x)))
  else .error "unknown loss_type"

/-- `ModelParam::FirstOrderGradient`: `predt - label` for all three known loss
kinds, fatal otherwise. -/
def ModelParam.FirstOrderGradient (m : ModelParam) (predt label : ℝ) : Except String ℝ :=
  if m.loss_type = 0 then .ok (predt - label)
  else if m.loss_type = 2 ∨ m.loss_type = 1 then .ok (predt - label)
  else .error "unknown loss_type"

/-- `ModelParam::SecondOrderGradient`: `1` for `kLinearSquare`,
`predt * (1 - predt)` for the logistic kinds, fatal otherwise. -/
def ModelParam.SecondOrderGradient (m : ModelParam) (predt label : ℝ) : Except String ℝ :=
  if m.loss_type = 0 then .ok 1
  else if m.loss_type = 2 ∨ m.loss_type = 1 then .ok (predt * (1 - predt))
  else .error "unknown loss_type"

/-- A concrete record with `loss_type = kLinearSquare`. -/
noncomputable def mpLin : ModelParam := ⟨0.5, 0, 0, List.replicate 16 0⟩

/-- A concrete record with `loss_type = kLogisticNeglik` and bias `1/2`. -/
noncomputable def mpHalfLog : ModelParam := ⟨1 / 2, 1, 0, List.replicate 16 0⟩

/-- A concrete record with `loss_type = kLogisticNeglik` and bias `2`. -/
noncomputable def mpTwoLog : ModelParam := ⟨2, 1, 0, List.replicate 16 0⟩

/-- A concrete record with `num_feature = 5`. -/
noncomputable def mpFive : ModelParam := ⟨0.5, 0, 5, List.replicate 16 0⟩

/-- One word of the fixed-size wire image of a `ModelParam` record: the
`float` field or one of the `int` fields (`loss_type`, `num_feature`, or a
reserved word). -/
inductive Cell where
  | flt : ℝ → Cell
  | intc : Int → Cell

/-- The fixed-size (19-word) wire image of a `ModelParam` record in
declaration order, as written by `SaveModel`'s
`fo.Write(&mparam, sizeof(ModelParam))`. -/
def cellsOfParam (m : ModelParam) : List Cell :=
  Cell.flt m.base_score :: Cell.intc m.loss_type :: Cell.intc m.num_feature ::
    m.reserved.map Cell.intc

/-- Reads one `int`-typed word back from the wire image. -/
def cellInt : Cell → Option Int
  | Cell.intc n => some n
  | Cell.flt _ => none

/-- Reads a run of `int`-typed words back from the wire image. -/
def cellInts : List Cell → Option (List Int)
  | [] => some []
  | c :: cs =>
    match cellInt c with
    | none => none
    | some n =>
      match cellInts cs with
      | none => none
      | some ns => some (n :: ns)

/-- Decodes a full wire image back into the record's fields (the in-memory
view of the bytes `LoadModel` read). -/
def paramOfCells : List Cell → Option ModelParam
  | Cell.flt b :: Cell.intc lt :: Cell.intc nf :: rest =>
      if rest.length = 16 then
        (cellInts rest).map fun rs => ⟨b, lt, nf, rs⟩
      else none
  | _ => none

/-- `sizeof(ModelParam)` in record words: 1 float + 2 ints + 16 reserved. -/
def sizeofModelParam : Nat := 19

/-- The `ModelParam` step of `BoostLearner::LoadModel`:
`utils::Assert(fi.Read(&mparam, sizeof(ModelParam)) != 0)`.
Modelled from the spec: `utils::IStream::Read` (its implementation is not
under `src/`) follows the item-count contract of `fread(ptr, size, 1, fp)` —
it either delivers the whole fixed-size record and reports a non-zero count,
or, on a truncated or short stream, reports zero ("a truncated or short
record is a fatal load error, not a default-filled success").  `prev` is the
destination record; under this contract its previous contents are never
observable (fully overwritten on success, process aborted by the assert on
failure).  The result is the wire image read; the assert fires exactly when
the count is zero, i.e. when fewer than `sizeofModelParam` words remain. -/
def LoadModelParam (prev : ModelParam) (stream : List Cell) :
    Except String (List Cell) :=
  if sizeofModelParam ≤ stream.length then .ok (stream.take sizeofModelParam)
  else .error "AssertError"

/-- The slice of the external `gbm::GBTree` collaborator that `SetData`
drives: it records the `SetParam` calls made on it, in order. -/
structure GBTree where
  params : List (String × String)

/-- `GBTree::SetParam` as observed from this unit: the call is recorded. -/
def GBTree.SetParam (g : GBTree) (name val : String) : GBTree :=
  ⟨g.params ++ [(name, val)]⟩

/-- The slice of the `DMatrix` collaborator used here: row count (`Size()`),
column count (`data.NumCol()`) and the label array. -/
structure DataMatrix where
  size : Nat
  numCol : Nat
  labels : List ℝ

/-- State of `BoostLearner` touched by `SetData`. -/
structure BoostLearner where
  silent : Int
  mparam : ModelParam
  base_gbm : GBTree
  train : DataMatrix
  evals : List DataMatrix
  evname : List String

/-- `BoostLearner::SetData`: computes the column-count maximum over the
training and evaluation matrices, accumulates the `unsigned` buffer size
(each addition reduced modulo `2^32` as the source's `unsigned` arithmetic
is), raises `mparam.num_feature` only when the new maximum exceeds it
(propagating `"bst:num_feature"` to the collaborator), and communicates the
buffer size as `"num_pbuffer"`. -/
def BoostLearner.SetData (b : BoostLearner) (train : DataMatrix)
    (evals : List DataMatrix) (evname : List String) : BoostLearner :=
  let num_feature : Int :=
    evals.foldl (fun a e => max a (e.numCol : Int)) (train.numCol : Int)
  let buffer_size : Nat :=
    evals.foldl (fun a e => (a + e.size) % 2 ^ 32) (train.size % 2 ^ 32)
  let st1 : ModelParam × GBTree :=
    if b.mparam.num_feature < num_feature then
      ({ b.mparam with num_feature := num_feature },
        b.base_gbm.SetParam "bst:num_feature" (toString num_feature))
    else (b.mparam, b.base_gbm)
  let gbm2 := st1.2.SetParam "num_pbuffer" (toString buffer_size)
  { b with
    mparam := st1.1
    base_gbm := gbm2
    train := train
    evals := evals
    evname := evname }

/-- Modelled from the spec: the evaluation-set prediction step (the member
that predicts the evaluation sets is absent from `src/`) addresses
evaluation set `i` at buffer offset = training row count + row counts of the
earlier evaluation sets, matching the spec's fixed slot ordering
[training rows..., eval-set-0 rows..., eval-set-1 rows..., ...]. -/
def evalBufferOffset (train_size : Nat) (eval_sizes : List Nat) (i : Nat) : Nat :=
  train_size + (eval_sizes.take i).sum

/-- The fallible-map skeleton of the source's row loops: apply `f` to every
element in order, stopping at the first fatal condition. -/
def exceptMap {α β : Type} (f : α → Except String β) : List α → Except String (List β)
  | [] => .ok []
  | a :: t =>
    match f a with
    | .error e => .error e
    | .ok b =>
      match exceptMap f t with
      | .error e => .error e
      | .ok bs => .ok (b :: bs)

/-- `BoostLearner::PredictBuffer`: the row loop computing
`PredTransform(base_score + base_gbm.Predict(data, j, buffer_offset + j))`.
The collaborator's `Predict` is an abstract function of the row index and
the buffer slot. -/
noncomputable def PredictBuffer (m : ModelParam) (gbmPredict : Nat → Nat → ℝ)
    (dsize : Nat) (buffer_offset : Nat) : Except String (List ℝ) :=
  exceptMap (fun j => m.PredTransform (m.base_score + gbmPredict j (buffer_offset + j)))
    (List.range dsize)

/-- The body of one `GetGradient` loop iteration at row index `j`: reads
`labels[j]` (an out-of-range access is modelled as an explicit error) and
evaluates both gradient formulas. -/
def gradRow (m : ModelParam) (labels : List ℝ) (p : ℝ) (j : Nat) :
    Except String (ℝ × ℝ) :=
  match labels[j]? with
  | none => .error "index out of bounds"
  | some y =>
    match m.FirstOrderGradient p y with
    | .error e => .error e
    | .ok g =>
      match m.SecondOrderGradient p y with
      | .error e => .error e
      | .ok h => .ok (g, h)

/-- The `GetGradient` row loop, carrying the running row index `j`. -/
def gradPairs (m : ModelParam) (labels : List ℝ) :
    List ℝ → Nat → Except String (List (ℝ × ℝ))
  | [], _ => .ok []
  | p :: ps, j =>
    match gradRow m labels p j with
    | .error e => .error e
    | .ok gh =>
      match gradPairs m labels ps (j + 1) with
      | .error e => .error e
      | .ok rest => .ok (gh :: rest)

/-- `BoostLearner::GetGradient`: grad and hess arrays, both resized to the
prediction count, filled row by row from the gradient formulas. -/
def GetGradient (m : ModelParam) (preds labels : List ℝ) :
    Except String (List ℝ × List ℝ) :=
  (gradPairs m labels preds 0).map fun l => (l.map Prod.fst, l.map Prod.snd)

/-- One recorded `base_gbm.DoBoost(grad, hess, ...)` delegate call. -/
structure DoBoostCall where
  grad : List ℝ
  hess : List ℝ

/-- `BoostLearner::UpdateOneIter`: predicts the training buffer at offset 0,
computes the gradient arrays against the training labels, and makes the
single `DoBoost` delegate call, which the result records together with the
per-round arrays. -/
noncomputable def UpdateOneIter (m : ModelParam) (gbmPredict : Nat → Nat → ℝ)
    (train : DataMatrix) :
    Except String (List ℝ × List ℝ × List ℝ × List DoBoostCall) :=
  match PredictBuffer m gbmPredict train.size 0 with
  | .error e => .error e
  | .ok preds =>
    match GetGradient m preds train.labels with
    | .error e => .error e
    | .ok gh => .ok (preds, gh.1, gh.2, [⟨gh.1, gh.2⟩])

/-- A concrete record with `loss_type = kLogisticNeglik` and `num_feature = 7`. -/
noncomputable def mpSeven : ModelParam := ⟨2, 1, 7, List.replicate 16 0⟩

/-- A collaborator whose raw prediction is 0 for every row and slot. -/
def gbmZero : Nat → Nat → ℝ := fun _ _ => 0

/-- A concrete record with `loss_type = kLinearSquare` and zero bias. -/
noncomputable def mpC8 : ModelParam := ⟨0, 0, 0, List.replicate 16 0⟩

/-- A concrete 4-row training matrix with labels `[1, 0, 1, 0]`. -/
noncomputable def dTrain4 : DataMatrix := ⟨4, 1, [1, 0, 1, 0]⟩

/-- A concrete 2-row training matrix. -/
noncomputable def dTwo : DataMatrix := ⟨2, 3, [0, 1]⟩

/-- A concrete 1-row evaluation matrix. -/
noncomputable def dOneA : DataMatrix := ⟨1, 2, [1]⟩

/-- Another concrete 1-row evaluation matrix. -/
noncomputable def dOneB : DataMatrix := ⟨1, 4, [0]⟩

/-- An empty matrix, placeholder for an unbound training reference. -/
def dEmpty : DataMatrix := ⟨0, 0, []⟩

/-- A freshly constructed learner: default parameters, no recorded
collaborator calls, nothing bound. -/
noncomputable def freshLearner : BoostLearner :=
  ⟨0, ModelParam.init, ⟨[]⟩, dEmpty, [], []⟩

/-- Claim C1: with `loss_type = LINEAR_SQUARE`, `PredTransform x = x`,
`FirstOrderGradient p y = p - y` and `SecondOrderGradient p y = 1`; with a
logistic `loss_type` (1 or 2), `PredTransform x = 1/(1+exp(-x))`,
`FirstOrderGradient p y = p - y` and `SecondOrderGradient p y = p*(1-p)`. -/
theorem C1_loss_policy (m : ModelParam) (x p y : ℝ) :
    (m.loss_type = 0 →
      m.PredTransform x = .ok x ∧
      m.FirstOrderGradient p y = .ok (p - y) ∧
      m.SecondOrderGradient p y = .ok 1) ∧
    (m.loss_type = 1 ∨ m.loss_type = 2 →
      m.PredTransform x = .ok (1 / (1 + Real.exp (-x))) ∧
      m.FirstOrderGradient p y = .ok (p - y) ∧
      m.SecondOrderGradient p y = .ok (p * (1 - p))) := by
  constructor
  · intro h
    simp [ModelParam.PredTransform, ModelParam.FirstOrderGradient,
      ModelParam.SecondOrderGradient, h]
  · rintro (h | h) <;>
      simp [ModelParam.PredTransform, ModelParam.FirstOrderGradient,
        ModelParam.SecondOrderGradient, h]

/-- Witness for C1 at a linear-square record and a logistic record. -/
theorem C1_loss_policy_witness :
    (mpLin.PredTransform 3 = .ok 3 ∧
      mpLin.FirstOrderGradient 3 1 = .ok (3 - 1) ∧
      mpLin.SecondOrderGradient 3 1 = .ok 1) ∧
    (mpHalfLog.PredTransform 3 = .ok (1 / (1 + Real.exp (-3))) ∧
      mpHalfLog.FirstOrderGradient 3 1 = .ok (3 - 1) ∧
      mpHalfLog.SecondOrderGradient 3 1 = .ok (3 * (1 - 3))) :=
  ⟨(C1_loss_policy mpLin 3 3 1).1 rfl,
   (C1_loss_policy mpHalfLog 3 3 1).2 (Or.inl rfl)⟩

/-- Claim C2 counterexample: starting from a record with `num_feature = 5`,
`SetParam "bst:num_feature" "3"` stores 3, not `max 5 3 = 5` — the call can
lower the stored bound. -/
theorem C2_counterexample :
    (mpFive.SetParam "bst:num_feature" "3").num_feature = 3 ∧
    (mpFive.SetParam "bst:num_feature" "3").num_feature ≠ max 5 3 := by
  constructor <;> decide

/-- Claim C2 (amended): `SetParam` with name `"bst:num_feature"` assigns the
parsed value unconditionally, overwriting the previous bound (it can lower it;
the only-ever-raised behaviour lives in `BoostLearner::SetData`, not here). -/
theorem C2_set_num_feature (m : ModelParam) (s : String) :
    m.SetParam "bst:num_feature" s = { m with num_feature := atoi s } := rfl

/-- Claim C3: under a logistic `loss_type` with `base_score` in `(0,1)`,
`AdjustBase` rewrites the bias to `-log (1/base_score - 1)` (so bias `1/2`
becomes `0`); under `loss_type = LINEAR_SQUARE` the record is unchanged. -/
theorem C3_adjust_base (m : ModelParam) :
    ((m.loss_type = 1 ∨ m.loss_type = 2) → 0 < m.base_score → m.base_score < 1 →
      m.AdjustBase = .ok { m with base_score := - Real.log (1 / m.base_score - 1) } ∧
      (m.base_score = 1 / 2 → - Real.log (1 / m.base_score - 1) = 0)) ∧
    (m.loss_type = 0 → m.AdjustBase = .ok m) := by
  constructor
  · intro hl h0 h1
    constructor
    · rcases hl with h | h <;> simp [ModelParam.AdjustBase, h, h0, h1]
    · intro hb
      rw [hb]
      norm_num
  · intro h
    simp [ModelParam.AdjustBase, h]

/-- Witness for C3: calibrating bias `1/2` under the logistic kind yields `0`,
and a linear-square record is untouched. -/
theorem C3_adjust_base_witness :
    mpHalfLog.AdjustBase =
      .ok { mpHalfLog with base_score := - Real.log (1 / mpHalfLog.base_score - 1) } ∧
    - Real.log (1 / mpHalfLog.base_score - 1) = 0 ∧
    mpLin.AdjustBase = .ok mpLin :=
  ⟨((C3_adjust_base mpHalfLog).1 (Or.inl rfl)
      (by norm_num : (0 : ℝ) < 1 / 2) (by norm_num : (1 : ℝ) / 2 < 1)).1,
   ((C3_adjust_base mpHalfLog).1 (Or.inl rfl)
      (by norm_num : (0 : ℝ) < 1 / 2) (by norm_num : (1 : ℝ) / 2 < 1)).2 rfl,
   (C3_adjust_base mpLin).2 rfl⟩

/-- Claim C7: under a logistic `loss_type`, a bias outside `(0,1)` makes
`AdjustBase` fail with the "sigmoid range constrain" assertion; it never
clamps or returns an adjusted record. -/
theorem C7_adjust_base_out_of_range (m : ModelParam)
    (hl : m.loss_type = 1 ∨ m.loss_type = 2)
    (hb : m.base_score ≤ 0 ∨ 1 ≤ m.base_score) :
    m.AdjustBase = .error "sigmoid range constrain" := by
  have hcond : ¬ (0 < m.base_score ∧ m.base_score < 1) := by
    rintro ⟨h0, h1⟩
    rcases hb with hb | hb <;> linarith
  rcases hl with h | h <;> simp [ModelParam.AdjustBase, h, hcond]

/-- Witness for C7 at bias `2` under the logistic kind. -/
theorem C7_adjust_base_out_of_range_witness :
    mpTwoLog.AdjustBase = .error "sigmoid range constrain" :=
  C7_adjust_base_out_of_range mpTwoLog (Or.inl rfl)
    (Or.inr (by norm_num : (1 : ℝ) ≤ 2))

/-- Claim C9: `SetParam` with a name outside the three recognized keys leaves
the whole record (every field, reserved block included) unchanged and raises
no error. -/
theorem C9_setparam_unrecognized (m : ModelParam) (name val : String)
    (h1 : name ≠ "base_score") (h2 : name ≠ "loss_type")
    (h3 : name ≠ "bst:num_feature") :
    m.SetParam name val = m := by
  simp [ModelParam.SetParam, h1, h2, h3]

/-- Witness for C9 at an unrecognized key. -/
theorem C9_setparam_unrecognized_witness :
    mpFive.SetParam "foo" "42" = mpFive :=
  C9_setparam_unrecognized mpFive "foo" "42" (by decide) (by decide) (by decide)

/-- Helper: a record with a 16-word reserved block has a full-size wire image. -/
theorem cellsOfParam_length (m : ModelParam) (hm : m.reserved.length = 16) :
    (cellsOfParam m).length = sizeofModelParam := by
  simp [cellsOfParam, sizeofModelParam, hm]

/-- Helper: reading a full-size wire image succeeds and reproduces it exactly. -/
theorem loadModelParam_full (prev m : ModelParam) (hm : m.reserved.length = 16) :
    LoadModelParam prev (cellsOfParam m) = .ok (cellsOfParam m) := by
  have h1 := cellsOfParam_length m hm
  simp only [LoadModelParam]
  rw [if_pos (Nat.le_of_eq h1.symm), List.take_of_length_le (Nat.le_of_eq h1)]

/-- Helper: decoding the `int` words of the wire image recovers them. -/
theorem cellInts_map (l : List Int) :
    cellInts (l.map Cell.intc) = some l := by
  induction l with
  | nil => rfl
  | cons a t ih => simp only [List.map_cons, cellInts, cellInt, ih]

/-- Helper: decoding a record's wire image recovers the record. -/
theorem paramOfCells_cellsOfParam (m : ModelParam) (hm : m.reserved.length = 16) :
    paramOfCells (cellsOfParam m) = some m := by
  obtain ⟨b, lt, nf, r⟩ := m
  simp only [ModelParam.reserved] at hm
  simp [cellsOfParam, paramOfCells, hm, cellInts_map]

/-- Claim C4: for every stream in which the fixed-size record cannot be
fully read — truncated or short, including strictly more than zero but fewer
than `sizeofModelParam` words remaining — the read reports zero and the
assert makes `LoadModel` fail fatally rather than produce a default- or
partially-filled record; it succeeds exactly when the whole record can be
read. -/
theorem C4_load_truncated (prev : ModelParam) (stream : List Cell) :
    (stream.length < sizeofModelParam →
      LoadModelParam prev stream = .error "AssertError") ∧
    (sizeofModelParam ≤ stream.length →
      LoadModelParam prev stream = .ok (stream.take sizeofModelParam)) := by
  refine ⟨fun h => ?_, fun h => ?_⟩
  · simp only [LoadModelParam]
    rw [if_neg (Nat.not_le.mpr h)]
  · simp only [LoadModelParam]
    rw [if_pos h]

/-- Witness for C4: a 1-word stream (non-empty but shorter than the record)
fails fatally, and a full-size stream succeeds. -/
theorem C4_load_truncated_witness :
    LoadModelParam mpFive [Cell.flt 2] = .error "AssertError" ∧
    LoadModelParam mpFive (cellsOfParam mpFive) =
      .ok ((cellsOfParam mpFive).take sizeofModelParam) :=
  ⟨(C4_load_truncated mpFive [Cell.flt 2]).1 (by decide),
   (C4_load_truncated mpFive (cellsOfParam mpFive)).2 (by decide)⟩

/-- Claim C6: serializing a record with arbitrary field values and an
all-zero reserved block and deserializing it reproduces every field exactly:
the stream read back is the written image, and decoding it yields the
original record, reserved block included. -/
theorem C6_roundtrip (prev m : ModelParam) (hp : prev.reserved.length = 16)
    (hz : m.reserved = List.replicate 16 0) :
    LoadModelParam prev (cellsOfParam m) = .ok (cellsOfParam m) ∧
    paramOfCells (cellsOfParam m) = some m := by
  have hm : m.reserved.length = 16 := by rw [hz]; simp
  exact ⟨loadModelParam_full prev m hm, paramOfCells_cellsOfParam m hm⟩

/-- Witness for C6 at a concrete record. -/
theorem C6_roundtrip_witness :
    LoadModelParam mpFive (cellsOfParam mpSeven) = .ok (cellsOfParam mpSeven) ∧
    paramOfCells (cellsOfParam mpSeven) = some mpSeven :=
  C6_roundtrip mpFive mpSeven rfl rfl

/-- Helper: the fallible row map only depends on the function's values on the
list. -/
theorem exceptMap_congr {α β : Type} (f g : α → Except String β) :
    ∀ l : List α, (∀ a ∈ l, f a = g a) → exceptMap f l = exceptMap g l := by
  intro l
  induction l with
  | nil => intro _; rfl
  | cons a t ih =>
    intro h
    simp only [exceptMap, h a (List.mem_cons_self a t),
      ih fun x hx => h x (List.mem_cons_of_mem a hx)]

/-- Helper: a fallible row map whose body always succeeds is a plain map. -/
theorem exceptMap_ok {α β : Type} (f : α → Except String β) (h : α → β)
    (l : List α) (hf : ∀ a ∈ l, f a = .ok (h a)) :
    exceptMap f l = .ok (l.map h) := by
  induction l with
  | nil => rfl
  | cons a t ih =>
    simp only [exceptMap, List.map_cons, hf a (List.mem_cons_self a t),
      ih fun x hx => hf x (List.mem_cons_of_mem a hx)]

/-- Claim C5: binding a training set of R rows and evaluation sets of A and B
rows communicates `num_pbuffer = R+A+B` to the collaborator (as the last
recorded call); the training predict step of `UpdateOneIter` runs at buffer
offset 0, so row `j` is addressed at slot `0 + j` (the prediction depends
only on the diagonal slots `j < R`); and the spec's slot ordering places
eval-0 at offset R and eval-1 at offset R+A. -/
theorem C5_buffer_slots (b : BoostLearner) (tr e1 e2 : DataMatrix) (ns : List String)
    (h : tr.size + e1.size + e2.size < 2 ^ 32) :
    (b.SetData tr [e1, e2] ns).base_gbm.params.getLast? =
        some ("num_pbuffer", toString (tr.size + e1.size + e2.size)) ∧
    (∀ (m : ModelParam) (g g' : Nat → Nat → ℝ),
        (∀ j, j < tr.size → g j j = g' j j) →
        PredictBuffer m g tr.size 0 = PredictBuffer m g' tr.size 0) ∧
    evalBufferOffset tr.size [e1.size, e2.size] 0 = tr.size ∧
    evalBufferOffset tr.size [e1.size, e2.size] 1 = tr.size + e1.size := by
  refine ⟨?_, ?_, ?_, ?_⟩
  · have hbuf : ((tr.size % 2 ^ 32 + e1.size) % 2 ^ 32 + e2.size) % 2 ^ 32 =
        tr.size + e1.size + e2.size := by omega
    simp only [BoostLearner.SetData, GBTree.SetParam, List.foldl, hbuf]
    split <;> simp
  · intro m g g' hg
    unfold PredictBuffer
    refine exceptMap_congr _ _ _ fun a ha => ?_
    rw [List.mem_range] at ha
    rw [Nat.zero_add, hg a ha]
  · simp [evalBufferOffset]
  · simp [evalBufferOffset]

/-- Witness for C5 at a 2-row training set and two 1-row evaluation sets. -/
theorem C5_buffer_slots_witness :
    (freshLearner.SetData dTwo [dOneA, dOneB] []).base_gbm.params.getLast? =
        some ("num_pbuffer", toString (dTwo.size + dOneA.size + dOneB.size)) ∧
    evalBufferOffset dTwo.size [dOneA.size, dOneB.size] 0 = dTwo.size ∧
    evalBufferOffset dTwo.size [dOneA.size, dOneB.size] 1 = dTwo.size + dOneA.size :=
  let t := C5_buffer_slots freshLearner dTwo dOneA dOneB [] (by decide)
  ⟨t.1, t.2.2.1, t.2.2.2⟩

/-- Helper: `FirstOrderGradient` either yields `p - y` or the fatal
"unknown loss_type" error. -/
theorem firstOrderGradient_cases (m : ModelParam) (p y : ℝ) :
    m.FirstOrderGradient p y = .ok (p - y) ∨
    m.FirstOrderGradient p y = .error "unknown loss_type" := by
  unfold ModelParam.FirstOrderGradient
  split_ifs <;> simp

/-- Helper: `SecondOrderGradient` either succeeds or fails with the fatal
"unknown loss_type" error. -/
theorem secondOrderGradient_cases (m : ModelParam) (p y : ℝ) :
    (∃ r, m.SecondOrderGradient p y = .ok r) ∨
    m.SecondOrderGradient p y = .error "unknown loss_type" := by
  unfold ModelParam.SecondOrderGradient
  split_ifs <;> simp

/-- Helper: whenever the row index is within the label array, one loop
iteration cannot take the out-of-bounds branch. -/
theorem gradRow_ne_index (m : ModelParam) (labels : List ℝ) (p : ℝ) (j : Nat)
    (hj : j < labels.length) :
    gradRow m labels p j ≠ .error "index out of bounds" := by
  unfold gradRow
  split
  · rename_i heq
    rw [List.getElem?_eq_getElem hj] at heq
    cases heq
  · rename_i y heq
    split
    · rename_i e hfo
      rcases firstOrderGradient_cases m p y with hfo2 | hfo2 <;> rw [hfo2] at hfo
      · cases hfo
      · cases hfo
        intro hc
        injection hc with hc
        exact absurd hc (by decide)
    · rename_i g hfo
      split
      · rename_i e hso
        rcases secondOrderGradient_cases m p y with ⟨r, hso2⟩ | hso2 <;>
          rw [hso2] at hso
        · cases hso
        · cases hso
          intro hc
          injection hc with hc
          exact absurd hc (by decide)
      · intro hc
        cases hc

/-- Helper: a successful gradient loop produces one pair per prediction. -/
theorem gradPairs_ok_length (m : ModelParam) (labels : List ℝ) :
    ∀ (ps : List ℝ) (j : Nat) (l : List (ℝ × ℝ)),
      gradPairs m labels ps j = .ok l → l.length = ps.length := by
  intro ps
  induction ps with
  | nil =>
    intro j l h
    cases h
    rfl
  | cons p t ih =>
    intro j l h
    unfold gradPairs at h
    split at h
    · cases h
    · split at h
      · cases h
      · rename_i rest hre
        cases h
        simp [ih (j + 1) rest hre]

/-- Helper: when every index the loop touches is within the label array, the
out-of-bounds branch is unreachable. -/
theorem gradPairs_ne_index_err (m : ModelParam) (labels : List ℝ) :
    ∀ (ps : List ℝ) (j : Nat), j + ps.length ≤ labels.length →
      gradPairs m labels ps j ≠ .error "index out of bounds" := by
  intro ps
  induction ps with
  | nil =>
    intro j _ h
    cases h
  | cons p t ih =>
    intro j hle h
    have hj : j < labels.length := by
      simp only [List.length_cons] at hle
      omega
    unfold gradPairs at h
    split at h
    · rename_i e hrow
      cases h
      exact gradRow_ne_index m labels p j hj hrow
    · split at h
      · rename_i e hre
        cases h
        refine ih (j + 1) ?_ hre
        simp only [List.length_cons] at hle
        omega
      · cases h

/-- Claim C10: when the label array is at least as long as the prediction
array, `GetGradient` never takes the out-of-bounds branch of its label
indexing, and any grad/hess arrays it produces have exactly the prediction
count. -/
theorem C10_gradient_bounds (m : ModelParam) (preds labels : List ℝ)
    (h : preds.length ≤ labels.length) :
    GetGradient m preds labels ≠ .error "index out of bounds" ∧
    ∀ g hs, GetGradient m preds labels = .ok (g, hs) →
      g.length = preds.length ∧ hs.length = preds.length := by
  constructor
  · intro hcontra
    unfold GetGradient at hcontra
    cases he : gradPairs m labels preds 0 with
    | error e =>
      rw [he] at hcontra
      simp only [Except.map] at hcontra
      cases hcontra
      exact gradPairs_ne_index_err m labels preds 0 (by omega) he
    | ok l =>
      rw [he] at hcontra
      simp only [Except.map] at hcontra
      cases hcontra
  · intro g hs hok
    unfold GetGradient at hok
    cases he : gradPairs m labels preds 0 with
    | error e => rw [he] at hok; simp only [Except.map] at hok; cases hok
    | ok l =>
      rw [he] at hok
      simp only [Except.map] at hok
      cases hok
      have hl := gradPairs_ok_length m labels preds 0 l he
      simp [hl]

/-- Witness for C10 at a 2-prediction, 3-label input. -/
theorem C10_gradient_bounds_witness :
    GetGradient mpLin [1, 2] [0, 1, 1] ≠ .error "index out of bounds" :=
  (C10_gradient_bounds mpLin [1, 2] [0, 1, 1] (by decide)).1

/-- Helper: under `loss_type = kLinearSquare`, the predict loop is the raw
sums shifted by the bias. -/
theorem predictBuffer_linear (m : ModelParam) (hm : m.loss_type = 0)
    (g : Nat → Nat → ℝ) (n off : Nat) :
    PredictBuffer m g n off =
      .ok ((List.range n).map fun j => m.base_score + g j (off + j)) := by
  unfold PredictBuffer
  exact exceptMap_ok _ _ _ fun a _ => by simp [ModelParam.PredTransform, hm]

/-- Claim C8: with `loss_type = LINEAR_SQUARE`, zero bias, a 4-row training
set with labels `[1,0,1,0]` and a collaborator predicting 0 everywhere, one
`UpdateOneIter` yields predictions `[0,0,0,0]`, grad `[-1,0,-1,0]`, hess
`[1,1,1,1]`, and exactly one recorded `DoBoost` call carrying those arrays. -/
theorem C8_one_round :
    UpdateOneIter mpC8 gbmZero dTrain4 =
      .ok ([0, 0, 0, 0], [-1, 0, -1, 0], [1, 1, 1, 1],
        [⟨[-1, 0, -1, 0], [1, 1, 1, 1]⟩]) := by
  have hpred : PredictBuffer mpC8 gbmZero dTrain4.size 0 = .ok [0, 0, 0, 0] := by
    rw [predictBuffer_linear mpC8 rfl gbmZero dTrain4.size 0]
    norm_num [mpC8, gbmZero, dTrain4, List.range_succ]
  have hgrad : GetGradient mpC8 [0, 0, 0, 0] dTrain4.labels =
      .ok ([-1, 0, -1, 0], [1, 1, 1, 1]) := by
    have : GetGradient mpC8 [0, 0, 0, 0] dTrain4.labels =
        .ok ([0 - 1, 0 - 0, 0 - 1, 0 - 0], [1, 1, 1, 1]) := rfl
    rw [this]
    norm_num
  simp only [UpdateOneIter, hpred, hgrad]
